import Mathlib

/-!
Verification development for the STM32 serial communication protocol library
(comm.h / comm_protocol.c / comm_manager.c / comm.c).

The C sources are shallowly embedded: bytes are natural numbers below 256,
C strings are lists of bytes (the NUL terminator is implicit; reading a
char array as a string takes the prefix before the first 0 byte), machine
integer wraparound is explicit arithmetic modulo a power of two, and the
side effects of a call (UART transmissions, user callback invocations) are
returned as an explicit effect list next to the updated channel instance.
The flags COMM_ENABLE_FAST_CRC = 1 and COMM_ENABLE_STATS = 0 and
COMM_ENABLE_DEBUG = 0 from comm_internal.h are fixed, matching the source:
the compiled CRC routine is the table-driven one, and the statistics and
debug branches are no-ops.
-/

/-- Protocol configuration constant COMM_MAX_CMD_LENGTH from comm_internal.h. -/
def COMM_MAX_CMD_LENGTH : Nat := 16

/-- Protocol configuration constant COMM_MAX_DATA_LENGTH from comm_internal.h. -/
def COMM_MAX_DATA_LENGTH : Nat := 64

/-- Frame start byte, the character of value 123 (opening brace). -/
def COMM_FRAME_START : Nat := 123

/-- Frame end byte, the character of value 125 (closing brace). -/
def COMM_FRAME_END : Nat := 125

/-- Command and data separator, the colon character. -/
def COMM_CMD_DATA_SEPARATOR : Nat := 58

/-- Field separator between data, sequence and CRC, the hash character. -/
def COMM_FIELD_SEPARATOR : Nat := 35

/-- Transmit buffer size COMM_TX_BUFFER_SIZE from comm_internal.h. -/
def COMM_TX_BUFFER_SIZE : Nat := 128

/-- Receive buffer size COMM_RX_BUFFER_SIZE from comm_internal.h. -/
def COMM_RX_BUFFER_SIZE : Nat := 256

/-- Bytes of the reserved command string "ACK". -/
def ackCmdBytes : List Nat := [65, 67, 75]

/-- Bytes of the reserved command string "NAK". -/
def nakCmdBytes : List Nat := [78, 65, 75]

/-- Bytes of the NAK reason string "SEQ_ERROR" passed by comm_handle_complete_frame. -/
def seqErrorBytes : List Nat := [83, 69, 81, 95, 69, 82, 82, 79, 82]

/-- Bytes (UTF-8) of the failure reason literal passed by comm_handle_timeout to
the failure callback when the retry budget is exhausted; the source string is
Chinese for "timeout retry failed". -/
def timeoutFailReasonBytes : List Nat :=
  [232, 182, 133, 230, 151, 182, 233, 135, 141, 232, 175, 149, 229, 164, 177, 232, 180, 165]

/-- Reading a C char array as a string: the prefix before the first NUL byte. -/
def cstr (l : List Nat) : List Nat := l.takeWhile (fun b => b != 0)

/-- The C strlen of a byte list viewed as a C string. -/
def strlen (l : List Nat) : Nat := (cstr l).length

/-- Truncation to 32 bits, the behaviour of uint32_t arithmetic. -/
def u32 (n : Nat) : Nat := n % 4294967296

/-- uint32_t subtraction a - b with wraparound. -/
def u32sub (a b : Nat) : Nat := (u32 a + 4294967296 - u32 b) % 4294967296

/-- Predicate for the bytes strtol consumes as hexadecimal digits. -/
def isHexDigitByte (c : Nat) : Bool :=
  (48 ≤ c && c ≤ 57) || (65 ≤ c && c ≤ 70) || (97 ≤ c && c ≤ 102)

/-- Numeric value of a single hexadecimal digit byte. -/
def hexDigitVal (c : Nat) : Nat :=
  if c ≤ 57 then c - 48 else if c ≤ 70 then c - 55 else c - 87

/-- Accumulate the value of a list of hexadecimal digit bytes, most significant first. -/
def hexDigitsVal (l : List Nat) : Nat := l.foldl (fun a c => a * 16 + hexDigitVal c) 0

/-- Predicate for the bytes isspace accepts, which strtol skips at the start. -/
def isSpaceByte (c : Nat) : Bool := c == 32 || (9 ≤ c && c ≤ 13)

/-- The libc strtol with base 16 on a machine with 32-bit long (STM32F4):
skip leading whitespace, optional sign, optional 0x or 0X prefix when a hex
digit follows, consume hex digits, clamp to the long range on overflow. -/
def strtol16 (s : List Nat) : Int :=
  let s1 := s.dropWhile isSpaceByte
  let signSplit : Bool × List Nat :=
    match s1 with
    | 43 :: t => (false, t)
    | 45 :: t => (true, t)
    | _ => (false, s1)
  let s2 := signSplit.2
  let s3 : List Nat :=
    match s2 with
    | 48 :: x :: t =>
        if (x == 120 || x == 88) && isHexDigitByte (t.headD 0) then t else s2
    | _ => s2
  let n := hexDigitsVal (s3.takeWhile isHexDigitByte)
  if signSplit.1 then
    if n > 2147483648 then -2147483648 else -(n : Int)
  else
    if n > 2147483647 then 2147483647 else (n : Int)

/-- The (uint8_t) cast of a strtol base-16 result, as used by the parser and
the ACK/NAK handlers. -/
def strtol16_u8 (s : List Nat) : Nat := (Int.emod (strtol16 s) 256).toNat

/-- Uppercase hexadecimal digit byte for a value below 16, as printed by the
%X conversion of snprintf. -/
def hexDigitUpper (d : Nat) : Nat := if d < 10 then 48 + d else 55 + d

/-- The two bytes printed by snprintf %02X for a uint8_t value. -/
def hex2 (n : Nat) : List Nat := [hexDigitUpper (n / 16 % 16), hexDigitUpper (n % 16)]

/-- CRC8-CCITT lookup table crc8_table from comm_protocol.c (polynomial 0x07). -/
def crc8_table : List Nat := [
  0x00, 0x07, 0x0E, 0x09, 0x1C, 0x1B, 0x12, 0x15,
  0x38, 0x3F, 0x36, 0x31, 0x24, 0x23, 0x2A, 0x2D,
  0x70, 0x77, 0x7E, 0x79, 0x6C, 0x6B, 0x62, 0x65,
  0x48, 0x4F, 0x46, 0x41, 0x54, 0x53, 0x5A, 0x5D,
  0xE0, 0xE7, 0xEE, 0xE9, 0xFC, 0xFB, 0xF2, 0xF5,
  0xD8, 0xDF, 0xD6, 0xD1, 0xC4, 0xC3, 0xCA, 0xCD,
  0x90, 0x97, 0x9E, 0x99, 0x8C, 0x8B, 0x82, 0x85,
  0xA8, 0xAF, 0xA6, 0xA1, 0xB4, 0xB3, 0xBA, 0xBD,
  0xC7, 0xC0, 0xC9, 0xCE, 0xDB, 0xDC, 0xD5, 0xD2,
  0xFF, 0xF8, 0xF1, 0xF6, 0xE3, 0xE4, 0xED, 0xEA,
  0xB7, 0xB0, 0xB9, 0xBE, 0xAB, 0xAC, 0xA5, 0xA2,
  0x8F, 0x88, 0x81, 0x86, 0x93, 0x94, 0x9D, 0x9A,
  0x27, 0x20, 0x29, 0x2E, 0x3B, 0x3C, 0x35, 0x32,
  0x1F, 0x18, 0x11, 0x16, 0x03, 0x04, 0x0D, 0x0A,
  0x57, 0x50, 0x59, 0x5E, 0x4B, 0x4C, 0x45, 0x42,
  0x6F, 0x68, 0x61, 0x66, 0x73, 0x74, 0x7D, 0x7A,
  0x89, 0x8E, 0x87, 0x80, 0x95, 0x92, 0x9B, 0x9C,
  0xB1, 0xB6, 0xBF, 0xB8, 0xAD, 0xAA, 0xA3, 0xA4,
  0xF9, 0xFE, 0xF7, 0xF0, 0xE5, 0xE2, 0xEB, 0xEC,
  0xC1, 0xC6, 0xCF, 0xC8, 0xDD, 0xDA, 0xD3, 0xD4,
  0x69, 0x6E, 0x67, 0x60, 0x75, 0x72, 0x7B, 0x7C,
  0x51, 0x56, 0x5F, 0x58, 0x4D, 0x4A, 0x43, 0x44,
  0x19, 0x1E, 0x17, 0x10, 0x05, 0x02, 0x0B, 0x0C,
  0x21, 0x26, 0x2F, 0x28, 0x3D, 0x3A, 0x33, 0x34,
  0x4E, 0x49, 0x40, 0x47, 0x52, 0x55, 0x5C, 0x5B,
  0x76, 0x71, 0x78, 0x7F, 0x6A, 0x6D, 0x64, 0x63,
  0x3E, 0x39, 0x30, 0x37, 0x22, 0x25, 0x2C, 0x2B,
  0x06, 0x01, 0x08, 0x0F, 0x1A, 0x1D, 0x14, 0x13,
  0xAE, 0xA9, 0xA0, 0xA7, 0xB2, 0xB5, 0xBC, 0xBB,
  0x96, 0x91, 0x98, 0x9F, 0x8A, 0x8D, 0x84, 0x83,
  0xDE, 0xD9, 0xD0, 0xD7, 0xC2, 0xC5, 0xCC, 0xCB,
  0xE6, 0xE1, 0xE8, 0xEF, 0xFA, 0xFD, 0xF4, 0xF3]

/-- Table-driven CRC8 of comm_crc8_calculate with COMM_ENABLE_FAST_CRC = 1.
A NULL data pointer or a zero length returns 0; the NULL case and the empty
case collapse to the empty list here. -/
def comm_crc8_calculate (data : List Nat) : Nat :=
  if data = [] then 0
  else data.foldl (fun crc b => crc8_table.getD ((crc ^^^ b) % 256) 0) 0

/-- One iteration of the inner bit loop of the COMM_ENABLE_FAST_CRC = 0
variant of comm_crc8_calculate: an MSB-test, a left shift truncated to
uint8_t, and a conditional XOR with the polynomial 0x07. -/
def crc8_bit_update (crc : Nat) : Nat :=
  if crc &&& 0x80 ≠ 0 then ((crc * 2) ^^^ 0x07) % 256 else (crc * 2) % 256

/-- The inner for loop of the direct variant: j remaining bit iterations. -/
def crc8_bits (crc : Nat) : Nat → Nat
  | 0 => crc
  | j + 1 => crc8_bits (crc8_bit_update crc) j

/-- Bit-by-bit CRC8 of comm_crc8_calculate with COMM_ENABLE_FAST_CRC = 0:
XOR the byte into the accumulator, then eight MSB-first conditional shifts. -/
def comm_crc8_calculate_direct (data : List Nat) : Nat :=
  if data = [] then 0
  else data.foldl (fun crc b => crc8_bits ((crc ^^^ b) % 256) 8) 0

/-- The comm_crc8_verify comparison from comm_protocol.c. -/
def comm_crc8_verify (data : List Nat) (expected_crc : Nat) : Bool :=
  comm_crc8_calculate data == expected_crc

/-- Modelled from the spec: one shift of the CRC-8 feedback register with an
incoming message bit, for the specification reading of section 4.1: CRC-8
with polynomial 0x07, MSB-first, no reflection, no final XOR. The feedback
bit is the register MSB XORed with the incoming bit. -/
def crc8_spec_bit_step (crc bit : Nat) : Nat :=
  let fb := (crc / 128) % 2 ^^^ (bit % 2)
  let sh := (crc * 2) % 256
  if fb = 1 then sh ^^^ 0x07 else sh

/-- The eight bits of a byte, most significant first. -/
def byteBitsMSB (b : Nat) : List Nat :=
  [b / 128 % 2, b / 64 % 2, b / 32 % 2, b / 16 % 2, b / 8 % 2, b / 4 % 2, b / 2 % 2, b % 2]

/-- Modelled from the spec: CRC-8 with polynomial 0x07, initial value 0x00,
MSB-first, no input or output reflection, no final XOR, defined by feeding
every message bit through the feedback register. -/
def crc8_spec (data : List Nat) : Nat :=
  ((data.map byteBitsMSB).flatten).foldl crc8_spec_bit_step 0

/-- Helper for the CRC equivalence proof: the first j bits of the byte r,
most significant first, produced by repeatedly shifting r left inside uint8_t
and reading the top bit. -/
def bitsAux (r : Nat) : Nat → List Nat
  | 0 => []
  | j + 1 => (r / 128) :: bitsAux ((r * 2) % 256) j

/-- The comm_state_t enumeration from comm_internal.h. -/
inductive CommState where
  | idle
  | sending
  | wait_ack
  | retry
  | receiving
  | processing
  | error
deriving DecidableEq

/-- The frame_parse_state_t enumeration from comm_internal.h. -/
inductive FrameParseState where
  | idle
  | cmd
  | wait_colon
  | data
  | wait_hash1
  | seq
  | wait_hash2
  | crc
  | wait_end
  | complete
  | error
deriving DecidableEq

/-- The comm_frame_t structure: command and data are char arrays read as C
strings, sequence and crc are uint8_t, is_valid a bool. -/
structure CommFrame where
  cmd : List Nat
  data : List Nat
  sequence : Nat
  crc : Nat
  is_valid : Bool
deriving DecidableEq

/-- A comm_frame_t cleared by memset, as done on frame start and after
consumption by comm_tick. -/
def commFrameZero : CommFrame :=
  { cmd := [], data := [], sequence := 0, crc := 0, is_valid := false }

/-- The comm_instance_t structure from comm_internal.h, restricted to the
fields the protocol logic reads or writes. The UART handle, the callback
tables and the disabled statistics are omitted: callback invocations are
reported in the effect lists instead. Character arrays are byte lists; the
write cursor rx_index is kept as its own field as in the source. -/
structure CommInstance where
  state : CommState
  parse_state : FrameParseState
  tx_sequence : Nat
  rx_sequence : Nat
  expected_ack_seq : Nat
  rx_buffer : List Nat
  tx_buffer : List Nat
  rx_index : Nat
  tx_length : Nat
  new_frame_available : Bool
  pending_frame : CommFrame
  frame_timeout : Nat
  timeout_ms : Nat
  max_retry : Nat
  retry_count : Nat
  last_send_time : Nat
  current_cmd : List Nat
  current_data : List Nat
  current_sequence : Nat
deriving DecidableEq

/-- A freshly initialised instance as produced by comm_instance_init via
comm_add_uart, with the default timeout of 1000 ms and max_retry of 3. -/
def commInstanceZero : CommInstance :=
  { state := CommState.idle
    parse_state := FrameParseState.idle
    tx_sequence := 0
    rx_sequence := 0
    expected_ack_seq := 0
    rx_buffer := []
    tx_buffer := []
    rx_index := 0
    tx_length := 0
    new_frame_available := false
    pending_frame := commFrameZero
    frame_timeout := 0
    timeout_ms := 1000
    max_retry := 3
    retry_count := 0
    last_send_time := 0
    current_cmd := []
    current_data := []
    current_sequence := 0 }

/-- Externally visible actions of the protocol code: UART transmissions of
ACK, NAK and retransmitted frames, dispatch of a received command to the
callback registry, and invocation of the failure callback. -/
inductive CommEffect where
  | sendAck (seq : Nat)
  | sendNak (seq : Nat) (reason : List Nat)
  | dispatch (cmd data : List Nat)
  | failCallback (cmd data reason : List Nat)
  | retransmit (frame : List Nat)
deriving DecidableEq

/-- The string CMD:DATA#SEQHEX that both comm_process_byte_in_interrupt and
comm_handle_complete_frame rebuild with snprintf to recompute the CRC of a
received frame. -/
def frameCrcString (f : CommFrame) : List Nat :=
  cstr f.cmd ++ COMM_CMD_DATA_SEPARATOR :: (cstr f.data ++ COMM_FIELD_SEPARATOR :: hex2 f.sequence)

/-- The comm_get_next_tx_sequence increment: tx_sequence grows by one inside
uint8_t and the value 0 is skipped. Returns the updated instance and the
drawn sequence number. -/
def comm_get_next_tx_sequence (i : CommInstance) : CommInstance × Nat :=
  let s0 := (i.tx_sequence + 1) % 256
  let s := if s0 = 0 then 1 else s0
  ({ i with tx_sequence := s }, s)

/-- The signed and renormalised sequence distance computed inside
comm_is_valid_rx_sequence and comm_handle_complete_frame: the int16_t
difference, pushed back toward zero by 256 when it falls outside
[-128, 128]. -/
def commSeqDiff (rx_seq baseline : Nat) : Int :=
  let diff : Int := (rx_seq : Int) - (baseline : Int)
  if diff < -128 then diff + 256
  else if diff > 128 then diff - 256
  else diff

/-- The comm_is_valid_rx_sequence acceptance test (statistics disabled):
accept a normalised distance between 1 and 10, reject duplicates, regressions
and larger jumps. -/
def comm_is_valid_rx_sequence (i : CommInstance) (rx_seq : Nat) : Bool :=
  let diff := commSeqDiff rx_seq i.rx_sequence
  if 1 ≤ diff ∧ diff ≤ 10 then true
  else if diff = 0 then false
  else if diff < 0 then false
  else false

/-- The comm_update_rx_sequence baseline commit. -/
def comm_update_rx_sequence (i : CommInstance) (rx_seq : Nat) : CommInstance :=
  { i with rx_sequence := rx_seq }

/-- The comm_build_frame routine. Returns none on the failure paths (oversize
command or data, snprintf truncation) and otherwise the updated instance
together with the produced frame bytes; the caller stores them into
tx_buffer. The two snprintf truncation checks are kept even though the
length guard makes them unreachable (the content is at most 85 bytes against
a 128-byte buffer). -/
def comm_build_frame (i : CommInstance) (cmd data : List Nat) :
    Option (CommInstance × List Nat) :=
  if strlen cmd > COMM_MAX_CMD_LENGTH ∨ strlen data > COMM_MAX_DATA_LENGTH then none
  else
    let drawn : CommInstance × Nat :=
      if i.retry_count > 0 then (i, i.current_sequence)
      else
        let next := comm_get_next_tx_sequence i
        ({ next.1 with current_sequence := next.2 }, next.2)
    let i1 := drawn.1
    let seq := drawn.2
    let content := COMM_FRAME_START ::
      (cstr cmd ++ COMM_CMD_DATA_SEPARATOR :: (cstr data ++ COMM_FIELD_SEPARATOR :: hex2 seq))
    if content.length ≥ COMM_TX_BUFFER_SIZE then none
    else
      let crc := comm_crc8_calculate content.tail
      let frame := content ++ COMM_FIELD_SEPARATOR :: (hex2 crc ++ [COMM_FRAME_END])
      if frame.length ≥ COMM_TX_BUFFER_SIZE then none
      else some ({ i1 with expected_ack_seq := seq }, frame)

/-- The interrupt-context byte automaton comm_process_byte_in_interrupt.
The now argument stands for HAL_GetTick. While a parsed frame is pending
(new_frame_available) every byte is discarded. On a closing brace in the CRC
state the received CRC is parsed, the CRC is recomputed over the rebuilt
CMD:DATA#SEQHEX string, and the frame is published only when the two agree. -/
def comm_process_byte_in_interrupt (now : Nat) (i : CommInstance) (byte : Nat) :
    CommInstance :=
  if i.new_frame_available then i
  else
    match i.parse_state with
    | FrameParseState.idle =>
        if byte = COMM_FRAME_START then
          { i with parse_state := FrameParseState.cmd
                   rx_index := 0
                   frame_timeout := u32 (now + 100)
                   pending_frame := commFrameZero }
        else i
    | FrameParseState.cmd =>
        if byte = COMM_CMD_DATA_SEPARATOR then
          { i with parse_state := FrameParseState.data, rx_index := 0 }
        else if i.rx_index < COMM_MAX_CMD_LENGTH then
          { i with pending_frame := { i.pending_frame with cmd := i.pending_frame.cmd ++ [byte] }
                   rx_index := i.rx_index + 1 }
        else { i with parse_state := FrameParseState.idle }
    | FrameParseState.data =>
        if byte = COMM_FIELD_SEPARATOR then
          { i with parse_state := FrameParseState.seq, rx_index := 0, rx_buffer := [] }
        else if i.rx_index < COMM_MAX_DATA_LENGTH then
          { i with pending_frame := { i.pending_frame with data := i.pending_frame.data ++ [byte] }
                   rx_index := i.rx_index + 1 }
        else { i with parse_state := FrameParseState.idle }
    | FrameParseState.seq =>
        if byte = COMM_FIELD_SEPARATOR then
          { i with pending_frame := { i.pending_frame with sequence := strtol16_u8 i.rx_buffer }
                   parse_state := FrameParseState.crc
                   rx_index := 0
                   rx_buffer := [] }
        else if i.rx_index < 2 then
          { i with rx_buffer := i.rx_buffer ++ [byte], rx_index := i.rx_index + 1 }
        else { i with parse_state := FrameParseState.idle }
    | FrameParseState.crc =>
        if byte = COMM_FRAME_END then
          let received := strtol16_u8 i.rx_buffer
          let check := frameCrcString i.pending_frame
          let ok := decide (0 < check.length) && comm_crc8_verify check received
          { i with pending_frame := { i.pending_frame with crc := received, is_valid := ok }
                   new_frame_available := ok
                   parse_state := FrameParseState.idle
                   rx_index := 0 }
        else if i.rx_index < 2 then
          { i with rx_buffer := i.rx_buffer ++ [byte], rx_index := i.rx_index + 1 }
        else { i with parse_state := FrameParseState.idle }
    | _ => { i with parse_state := FrameParseState.idle }

/-- The comm_instance_is_ready test from comm_manager.c. -/
def comm_instance_is_ready (i : CommInstance) : Bool :=
  i.state = CommState.idle

/-- The comm_set_state transition from comm_manager.c. The state change
observer is a pure notification and is not recorded. -/
def comm_set_state (i : CommInstance) (new_state : CommState) : CommInstance :=
  { i with state := new_state }

/-- The comm_send_ack transmission. The ACK frame bytes are built locally and
handed to HAL_UART_Transmit; no instance field is written, so the model
records only the transmission effect. -/
def comm_send_ack (i : CommInstance) (ack_seq : Nat) : CommInstance × List CommEffect :=
  (i, [CommEffect.sendAck ack_seq])

/-- The comm_send_nak transmission, which goes through comm_send_raw: on a
successful blocking transmit (txOkBlock) comm_send_raw records
last_send_time. -/
def comm_send_nak (txOkBlock : Bool) (now : Nat) (i : CommInstance)
    (nak_seq : Nat) (reason : List Nat) : CommInstance × List CommEffect :=
  (if txOkBlock then { i with last_send_time := now } else i,
   [CommEffect.sendNak nak_seq reason])

/-- The comm_handle_timeout routine from comm_manager.c. txOkIT models the
HAL_UART_Transmit_IT status of the retry resend, txOkBlock the status of the
blocking fallback through comm_send_raw. Below max_retry the frame bytes in
tx_buffer are retransmitted unchanged; at max_retry the failure callback is
invoked with the retained command and data and the reason literal of the source,
and the channel returns to IDLE with retry_count cleared. -/
def comm_handle_timeout (txOkIT txOkBlock : Bool) (now : Nat) (i : CommInstance) :
    CommInstance × List CommEffect :=
  if i.retry_count < i.max_retry then
    let i1 := { i with retry_count := i.retry_count + 1 }
    if txOkIT then
      ({ comm_set_state i1 CommState.wait_ack with last_send_time := now },
       [CommEffect.retransmit i1.tx_buffer])
    else if txOkBlock then
      (comm_set_state { i1 with last_send_time := now } CommState.wait_ack,
       [CommEffect.retransmit i1.tx_buffer])
    else (i1, [CommEffect.retransmit i1.tx_buffer])
  else
    ({ comm_set_state i CommState.idle with retry_count := 0 },
     [CommEffect.failCallback i.current_cmd i.current_data timeoutFailReasonBytes])

/-- The comm_handle_complete_frame dispatcher (statistics disabled). Invalid
frames are dropped; ACK and NAK frames examine the sequence number encoded in
their data with strtol base 16; data frames run the receive-window check,
the anti-loopback guard, baseline update, acknowledgement and callback
dispatch, or the duplicate and reject responses. -/
def comm_handle_complete_frame (txOkIT txOkBlock : Bool) (now : Nat)
    (i : CommInstance) (f : CommFrame) : CommInstance × List CommEffect :=
  if f.is_valid = false then (i, [])
  else if cstr f.cmd = ackCmdBytes then
    let ack_seq := strtol16_u8 (cstr f.data)
    if ack_seq = i.expected_ack_seq ∧ i.state = CommState.wait_ack then
      ({ comm_set_state i CommState.idle with retry_count := 0 }, [])
    else (i, [])
  else if cstr f.cmd = nakCmdBytes then
    let nak_seq := strtol16_u8 (cstr f.data)
    if nak_seq = i.expected_ack_seq ∧ i.state = CommState.wait_ack then
      comm_handle_timeout txOkIT txOkBlock now i
    else (i, [])
  else
    if comm_is_valid_rx_sequence i f.sequence then
      if i.state = CommState.wait_ack ∧ f.sequence = i.expected_ack_seq then (i, [])
      else
        let i1 := comm_update_rx_sequence i f.sequence
        let acked := comm_send_ack i1 f.sequence
        (acked.1, acked.2 ++ [CommEffect.dispatch (cstr f.cmd) (cstr f.data)])
    else
      let diff := commSeqDiff f.sequence i.rx_sequence
      if diff = 0 then comm_send_ack i f.sequence
      else comm_send_nak txOkBlock now i f.sequence seqErrorBytes

/-- The comm_is_timeout test: only meaningful in WAIT_ACK, comparing the
uint32_t elapsed time against timeout_ms. -/
def comm_is_timeout (now : Nat) (i : CommInstance) : Bool :=
  if i.state ≠ CommState.wait_ack then false
  else u32sub now i.last_send_time ≥ i.timeout_ms

/-- The comm_is_frame_timeout test: a frame assembly deadline only applies
while the byte automaton is mid-frame. -/
def comm_is_frame_timeout (now : Nat) (i : CommInstance) : Bool :=
  if i.parse_state = FrameParseState.idle then false
  else u32 now ≥ u32 i.frame_timeout

/-- The comm_handle_frame_timeout recovery: reset the automaton and drop the
pending-frame flag. -/
def comm_handle_frame_timeout (i : CommInstance) : CommInstance :=
  { i with parse_state := FrameParseState.idle
           rx_index := 0
           new_frame_available := false }

/-- The comm_send_command entry point from comm.c, for a channel instance
that has already been resolved from its UART handle. none stands for a NULL
argument pointer. txOk models the HAL_UART_Transmit status. The command and
data are retained (truncated by strncpy to the 16- and 64-byte arrays) for
retries before the frame is built; on a successful transmit the channel
moves to WAIT_ACK and records last_send_time. -/
def comm_send_command (txOk : Bool) (now : Nat) (i : CommInstance)
    (cmd data : Option (List Nat)) : Bool × CommInstance :=
  if ¬ comm_instance_is_ready i then (false, i)
  else
    match cmd, data with
    | none, _ => (false, i)
    | some _, none => (false, i)
    | some cmd, some data =>
      if strlen cmd ≥ COMM_MAX_CMD_LENGTH ∨ strlen data ≥ COMM_MAX_DATA_LENGTH then (false, i)
      else
        let i1 := { i with current_cmd := (cstr cmd).take (COMM_MAX_CMD_LENGTH - 1)
                           current_data := (cstr data).take (COMM_MAX_DATA_LENGTH - 1)
                           retry_count := 0 }
        match comm_build_frame i1 cmd data with
        | none => (false, i1)
        | some built =>
          let i2 := { built.1 with tx_buffer := built.2, tx_length := built.2.length }
          let i3 := if 0 < strlen i2.pending_frame.cmd
                    then { i2 with pending_frame := commFrameZero } else i2
          if txOk then
            (true, { comm_set_state i3 CommState.wait_ack with last_send_time := now })
          else (false, i3)

/-- The per-instance body of the comm_tick loop: fire the ACK timeout, fire
the frame-assembly timeout, then drain a pending parsed frame into
comm_handle_complete_frame and clear the single-slot mailbox. -/
def comm_tick_body (txOkIT txOkBlock : Bool) (now : Nat) (i : CommInstance) :
    CommInstance × List CommEffect :=
  let step1 : CommInstance × List CommEffect :=
    if comm_is_timeout now i then comm_handle_timeout txOkIT txOkBlock now i else (i, [])
  let i1 := step1.1
  let i2 := if comm_is_frame_timeout now i1 then comm_handle_frame_timeout i1 else i1
  if i2.new_frame_available then
    let handled := comm_handle_complete_frame txOkIT txOkBlock now i2 i2.pending_frame
    ({ handled.1 with new_frame_available := false, pending_frame := commFrameZero },
     step1.2 ++ handled.2)
  else (i2, step1.2)

/-- The comm_tick loop over all registered instances. -/
def comm_tick (txOkIT txOkBlock : Bool) (now : Nat) :
    List CommInstance → List CommInstance × List CommEffect
  | [] => ([], [])
  | i :: rest =>
      let first := comm_tick_body txOkIT txOkBlock now i
      let others := comm_tick txOkIT txOkBlock now rest
      (first.1 :: others.1, first.2 ++ others.2)

/-- Modelled from the spec: the claimed normalisation of the sequence
distance into the half-open interval from -127 to 128 by adding or
subtracting 256, used to compare the code against claim C5. -/
def specNormDiff (rx_seq baseline : Nat) : Int :=
  let diff : Int := (rx_seq : Int) - (baseline : Int)
  if diff ≤ -128 then diff + 256
  else if diff > 128 then diff - 256
  else diff

set_option maxRecDepth 4096 in
theorem crc8_table_ok : ∀ x < 256, crc8_table.getD x 0 = crc8_bits x 8 := by decide

set_option maxRecDepth 4096 in
theorem crc8_table_getD_lt (x : Nat) : crc8_table.getD x 0 < 256 := by
  rcases Nat.lt_or_ge x 256 with h | h
  · revert h; revert x; decide
  · rw [List.getD_eq_default]
    · norm_num
    · have hlen : crc8_table.length = 256 := by decide
      omega

theorem crc8_bit_update_lt (x : Nat) : crc8_bit_update x < 256 := by
  unfold crc8_bit_update
  split
  · exact Nat.mod_lt _ (by norm_num)
  · exact Nat.mod_lt _ (by norm_num)

theorem crc8_bits_lt (j x : Nat) (hx : x < 256) : crc8_bits x j < 256 := by
  induction j generalizing x with
  | zero => simpa [crc8_bits] using hx
  | succ j ih => simpa [crc8_bits] using ih _ (crc8_bit_update_lt x)

theorem comm_crc8_calculate_eq_direct (data : List Nat) :
    comm_crc8_calculate data = comm_crc8_calculate_direct data := by
  unfold comm_crc8_calculate comm_crc8_calculate_direct
  have hfun : (fun crc b => crc8_table.getD ((crc ^^^ b) % 256) 0)
      = fun crc b => crc8_bits ((crc ^^^ b) % 256) 8 := by
    funext c b
    exact crc8_table_ok _ (Nat.mod_lt _ (by norm_num))
  rw [hfun]

theorem xor_mod_256 (x y : Nat) : (x ^^^ y) % 256 = (x % 256) ^^^ (y % 256) := by
  have h : (256 : Nat) = 2 ^ 8 := by norm_num
  rw [h]
  apply Nat.eq_of_testBit_eq
  intro j
  simp only [Nat.testBit_mod_two_pow, Nat.testBit_xor]
  by_cases hj : j < 8 <;> simp [hj]

theorem xor_mul_two (x y : Nat) : (x ^^^ y) * 2 = x * 2 ^^^ y * 2 := by
  have h2 : ∀ z : Nat, z * 2 = z <<< 1 := by
    intro z
    simp [Nat.shiftLeft_eq]
  rw [h2, h2, h2]
  apply Nat.eq_of_testBit_eq
  intro j
  simp only [Nat.testBit_shiftLeft, Nat.testBit_xor]
  by_cases hj : 1 ≤ j <;> simp [hj]

theorem testBit_128 (j : Nat) : Nat.testBit 128 j = decide (j = 7) := by
  rw [show (128 : Nat) = 2 ^ 7 by norm_num, Nat.testBit_two_pow]
  by_cases h : j = 7 <;> simp [h, Ne.symm]

theorem and_128_eq (u : Nat) : u &&& 128 = if u.testBit 7 then 128 else 0 := by
  apply Nat.eq_of_testBit_eq
  intro j
  rw [Nat.testBit_and, testBit_128]
  by_cases hj : j = 7
  · subst hj
    cases h : u.testBit 7 <;> simp [h, testBit_128]
  · split <;> simp [testBit_128, hj]

theorem and_128_ne_zero (u : Nat) : (u &&& 128 ≠ 0) ↔ u.testBit 7 = true := by
  rw [and_128_eq]
  cases h : u.testBit 7 <;> simp [h]

theorem div_128_mod_two (v : Nat) : v / 128 % 2 = (v.testBit 7).toNat := by
  have h128 : (128 : Nat) = 2 ^ 7 := by norm_num
  rw [h128, Nat.toNat_testBit]

theorem crc8_single_step (v r : Nat) :
    crc8_bit_update (v ^^^ r) = crc8_spec_bit_step v (r / 128) ^^^ r * 2 % 256 := by
  have hcond : ((v ^^^ r) &&& 128 ≠ 0) ↔ (v / 128 % 2 ^^^ r / 128 % 2 = 1) := by
    rw [and_128_ne_zero, Nat.testBit_xor, div_128_mod_two, div_128_mod_two]
    cases hv : v.testBit 7 <;> cases hr : r.testBit 7 <;> simp [hv, hr]
  simp only [crc8_bit_update, crc8_spec_bit_step]
  by_cases h : (v ^^^ r) &&& 128 ≠ 0
  · have h2 : v / 128 % 2 ^^^ r / 128 % 2 = 1 := hcond.mp h
    rw [if_pos h, if_pos h2]
    rw [xor_mul_two]
    rw [show (v * 2 ^^^ r * 2) ^^^ 7 = (v * 2 ^^^ 7) ^^^ r * 2 by
      rw [Nat.xor_assoc, Nat.xor_assoc, Nat.xor_comm (r * 2) 7]]
    rw [xor_mod_256, xor_mod_256]
  · have h2 : ¬ (v / 128 % 2 ^^^ r / 128 % 2 = 1) := fun hc => h (hcond.mpr hc)
    rw [if_neg h, if_neg h2, xor_mul_two, xor_mod_256]

theorem crc8_spec_bit_step_lt (v b : Nat) : crc8_spec_bit_step v b < 256 := by
  simp only [crc8_spec_bit_step]
  split
  · exact Nat.xor_lt_two_pow (n := 8) (Nat.mod_lt _ (by norm_num)) (by norm_num)
  · exact Nat.mod_lt _ (by norm_num)

theorem byteBitsMSB_eq_bitsAux (r : Nat) (hr : r < 256) : byteBitsMSB r = bitsAux r 8 := by
  simp only [byteBitsMSB, bitsAux, List.cons.injEq, and_true]
  omega

theorem crc8_bits_spec_aux (j : Nat) : ∀ v r, v < 256 → r < 256 →
    crc8_bits (v ^^^ r) j = (bitsAux r j).foldl crc8_spec_bit_step v ^^^ r * 2 ^ j % 256 := by
  induction j with
  | zero =>
      intro v r _ hr
      simp [crc8_bits, bitsAux, Nat.mod_eq_of_lt hr]
  | succ j ih =>
      intro v r hv hr
      show crc8_bits (crc8_bit_update (v ^^^ r)) j = _
      rw [crc8_single_step v r]
      rw [ih _ _ (crc8_spec_bit_step_lt v (r / 128)) (Nat.mod_lt _ (by norm_num))]
      have hmod : r * 2 % 256 * 2 ^ j % 256 = r * 2 ^ (j + 1) % 256 := by
        rw [Nat.mod_mul_mod]
        congr 1
        rw [Nat.pow_succ]
        ring
      rw [hmod]
      rfl

theorem crc8_byte_bridge (v r : Nat) (hv : v < 256) (hr : r < 256) :
    crc8_bits ((v ^^^ r) % 256) 8 = (byteBitsMSB r).foldl crc8_spec_bit_step v := by
  have hxor : v ^^^ r < 256 := Nat.xor_lt_two_pow (n := 8) hv hr
  rw [Nat.mod_eq_of_lt hxor, crc8_bits_spec_aux 8 v r hv hr, byteBitsMSB_eq_bitsAux r hr]
  have : r * 2 ^ 8 % 256 = 0 := by omega
  rw [this, Nat.xor_zero]

theorem crc8_fold_spec_aux (l : List Nat) : ∀ v, v < 256 → (∀ b ∈ l, b < 256) →
    l.foldl (fun crc b => crc8_bits ((crc ^^^ b) % 256) 8) v
      = ((l.map byteBitsMSB).flatten).foldl crc8_spec_bit_step v := by
  induction l with
  | nil => intro v _ _; rfl
  | cons b l ih =>
      intro v hv hb
      simp only [List.foldl_cons, List.map_cons, List.flatten_cons, List.foldl_append]
      rw [← crc8_byte_bridge v b hv (hb b (by simp))]
      exact ih _ (crc8_bits_lt 8 _ (Nat.mod_lt _ (by norm_num)))
        (fun x hx => hb x (by simp [hx]))

theorem comm_crc8_calculate_direct_eq_spec (data : List Nat)
    (h : ∀ b ∈ data, b < 256) :
    comm_crc8_calculate_direct data = crc8_spec data := by
  unfold comm_crc8_calculate_direct crc8_spec
  by_cases hd : data = []
  · subst hd; rfl
  · rw [if_neg hd]
    exact crc8_fold_spec_aux data 0 (by norm_num) h

theorem cstr_eq_self {l : List Nat} (h : ∀ b ∈ l, b ≠ 0) : cstr l = l := by
  induction l with
  | nil => rfl
  | cons a t ih =>
      have ha : (a != 0) = true := by
        simpa using h a (by simp)
      simp only [cstr, List.takeWhile_cons, ha, if_true]
      exact congrArg (a :: ·) (ih fun b hb => h b (by simp [hb]))

theorem strlen_eq_length {l : List Nat} (h : ∀ b ∈ l, b ≠ 0) : strlen l = l.length := by
  rw [strlen, cstr_eq_self h]

set_option maxRecDepth 4096 in
theorem strtol16_u8_hex2 : ∀ n < 256, strtol16_u8 (hex2 n) = n := by decide

theorem hexDigitUpper_range (d : Nat) (hd : d < 16) :
    (48 ≤ hexDigitUpper d ∧ hexDigitUpper d ≤ 57) ∨
    (65 ≤ hexDigitUpper d ∧ hexDigitUpper d ≤ 70) := by
  unfold hexDigitUpper
  split <;> omega

theorem hex2_mem_range (n b : Nat) (hb : b ∈ hex2 n) :
    (48 ≤ b ∧ b ≤ 57) ∨ (65 ≤ b ∧ b ≤ 70) := by
  simp only [hex2, List.mem_cons, List.mem_singleton, List.not_mem_nil, or_false] at hb
  rcases hb with h | h <;> subst h <;>
    exact hexDigitUpper_range _ (Nat.mod_lt _ (by norm_num))

/-- C9: the table-driven variant of comm_crc8_calculate and the bit-by-bit
variant return the same value on every byte sequence, that value is the
CRC-8 of the data with polynomial 0x07, initial value 0x00, MSB-first, no
reflection and no final XOR, and the empty (or NULL) input returns 0. -/
theorem C9_crc_equivalence (data : List Nat) (h : ∀ b ∈ data, b < 256) :
    comm_crc8_calculate data = comm_crc8_calculate_direct data ∧
    comm_crc8_calculate data = crc8_spec data ∧
    comm_crc8_calculate [] = 0 :=
  ⟨comm_crc8_calculate_eq_direct data,
   (comm_crc8_calculate_eq_direct data).trans (comm_crc8_calculate_direct_eq_spec data h),
   rfl⟩

/-- Witness for C9 at the one-byte input 0x41, the letter A of the test
vector in the spec. -/
theorem C9_crc_equivalence_witness :
    (∀ b ∈ [65], b < 256) ∧
    (comm_crc8_calculate [65] = comm_crc8_calculate_direct [65] ∧
     comm_crc8_calculate [65] = crc8_spec [65] ∧
     comm_crc8_calculate [] = 0) :=
  ⟨by decide, C9_crc_equivalence [65] (by decide)⟩

/-- C5: comm_is_valid_rx_sequence accepts exactly the sequence numbers whose
distance from the stored baseline, renormalised into the interval from -127
to 128 by adding or subtracting 256, lies between 1 and 10; with baseline
250 an incoming 1 has normalised distance 7 and is accepted, and with
baseline 5 an incoming 250 is rejected. -/
theorem C5_receive_window (i : CommInstance) (rx_seq : Nat)
    (hrx : rx_seq < 256) (hbase : i.rx_sequence < 256) :
    (comm_is_valid_rx_sequence i rx_seq = true ↔
      1 ≤ specNormDiff rx_seq i.rx_sequence ∧ specNormDiff rx_seq i.rx_sequence ≤ 10) ∧
    comm_is_valid_rx_sequence { i with rx_sequence := 250 } 1 = true ∧
    specNormDiff 1 250 = 7 ∧
    comm_is_valid_rx_sequence { i with rx_sequence := 5 } 250 = false := by
  refine ⟨?_, ?_, ?_, ?_⟩
  · simp only [comm_is_valid_rx_sequence, commSeqDiff, specNormDiff]
    split_ifs <;> simp <;> omega
  · simp [comm_is_valid_rx_sequence, commSeqDiff]
  · simp [specNormDiff]
  · simp [comm_is_valid_rx_sequence, commSeqDiff]

/-- Witness for C5 at baseline 0 and incoming sequence 1. -/
theorem C5_receive_window_witness :
    (1 < 256 ∧ commInstanceZero.rx_sequence < 256) ∧
    ((comm_is_valid_rx_sequence commInstanceZero 1 = true ↔
        1 ≤ specNormDiff 1 commInstanceZero.rx_sequence ∧
        specNormDiff 1 commInstanceZero.rx_sequence ≤ 10) ∧
      comm_is_valid_rx_sequence { commInstanceZero with rx_sequence := 250 } 1 = true ∧
      specNormDiff 1 250 = 7 ∧
      comm_is_valid_rx_sequence { commInstanceZero with rx_sequence := 5 } 250 = false) :=
  ⟨⟨by norm_num, by decide⟩, C5_receive_window commInstanceZero 1 (by norm_num) (by decide)⟩

/-- C6: a CRC-valid ACK frame whose data encodes the expected sequence while
the channel is in WAIT_ACK moves the channel to IDLE and clears retry_count;
any other ACK (wrong sequence or channel not in WAIT_ACK) changes no field
and produces no effect. -/
theorem C6_ack_handling (txOkIT txOkBlock : Bool) (now : Nat) (i : CommInstance)
    (f : CommFrame) (hv : f.is_valid = true) (hack : cstr f.cmd = ackCmdBytes) :
    (strtol16_u8 (cstr f.data) = i.expected_ack_seq ∧ i.state = CommState.wait_ack →
      comm_handle_complete_frame txOkIT txOkBlock now i f
        = ({ i with state := CommState.idle, retry_count := 0 }, [])) ∧
    (¬ (strtol16_u8 (cstr f.data) = i.expected_ack_seq ∧ i.state = CommState.wait_ack) →
      comm_handle_complete_frame txOkIT txOkBlock now i f = (i, [])) := by
  constructor <;> intro hc <;>
    simp [comm_handle_complete_frame, hv, hack, hc, comm_set_state]

/-- Witness for C6: ACK with data "05" against expected sequence 5 in
WAIT_ACK. -/
theorem C6_ack_handling_witness :
    (({ cmd := [65, 67, 75], data := [48, 53], sequence := 0, crc := 0, is_valid := true } : CommFrame).is_valid = true ∧
     cstr ({ cmd := [65, 67, 75], data := [48, 53], sequence := 0, crc := 0, is_valid := true } : CommFrame).cmd = ackCmdBytes) ∧
    ((strtol16_u8 (cstr ({ cmd := [65, 67, 75], data := [48, 53], sequence := 0, crc := 0, is_valid := true } : CommFrame).data) = ({ commInstanceZero with state := CommState.wait_ack, expected_ack_seq := 5 } : CommInstance).expected_ack_seq ∧
        ({ commInstanceZero with state := CommState.wait_ack, expected_ack_seq := 5 } : CommInstance).state = CommState.wait_ack →
      comm_handle_complete_frame true true 0 { commInstanceZero with state := CommState.wait_ack, expected_ack_seq := 5 } { cmd := [65, 67, 75], data := [48, 53], sequence := 0, crc := 0, is_valid := true } = ({ { commInstanceZero with state := CommState.wait_ack, expected_ack_seq := 5 } with state := CommState.idle, retry_count := 0 }, [])) ∧
     (¬ (strtol16_u8 (cstr ({ cmd := [65, 67, 75], data := [48, 53], sequence := 0, crc := 0, is_valid := true } : CommFrame).data) = ({ commInstanceZero with state := CommState.wait_ack, expected_ack_seq := 5 } : CommInstance).expected_ack_seq ∧
        ({ commInstanceZero with state := CommState.wait_ack, expected_ack_seq := 5 } : CommInstance).state = CommState.wait_ack) →
      comm_handle_complete_frame true true 0 { commInstanceZero with state := CommState.wait_ack, expected_ack_seq := 5 } { cmd := [65, 67, 75], data := [48, 53], sequence := 0, crc := 0, is_valid := true } = ({ commInstanceZero with state := CommState.wait_ack, expected_ack_seq := 5 }, []))) :=
  ⟨⟨rfl, by decide⟩,
   C6_ack_handling true true 0 { commInstanceZero with state := CommState.wait_ack, expected_ack_seq := 5 } { cmd := [65, 67, 75], data := [48, 53], sequence := 0, crc := 0, is_valid := true } rfl (by decide)⟩

/-- Counterexample for C4 as stated: a channel in WAIT_ACK with expected ACK
sequence 7 whose receive baseline is also 7 handles a CRC-valid data frame
with sequence 7 by retransmitting an ACK (the duplicate path runs before the
anti-loopback guard is ever reached), so the claim that no ACK is
transmitted for every such frame is false. -/
theorem C4_counterexample :
    (comm_handle_complete_frame true true 0 { commInstanceZero with state := CommState.wait_ack, expected_ack_seq := 7, rx_sequence := 7 } { cmd := [67, 77, 68], data := [88], sequence := 7, crc := 0, is_valid := true }).2 = [CommEffect.sendAck 7] := by
  decide

/-- C4 (amended): the anti-loopback guard applies only to frames that also
pass the receive-window check: for a channel in WAIT_ACK with expected ACK
sequence s, a CRC-valid data frame with sequence s whose sequence is
accepted by comm_is_valid_rx_sequence is silently dropped, with no ACK, no
NAK, no dispatch and no change to any instance field. A frame with
sequence s that falls on the duplicate or out-of-window paths still
receives the normal ACK or NAK response. -/
theorem C4_anti_loopback (txOkIT txOkBlock : Bool) (now : Nat) (i : CommInstance)
    (f : CommFrame) (hv : f.is_valid = true)
    (hna : cstr f.cmd ≠ ackCmdBytes) (hnn : cstr f.cmd ≠ nakCmdBytes)
    (hw : i.state = CommState.wait_ack) (hs : f.sequence = i.expected_ack_seq)
    (hacc : comm_is_valid_rx_sequence i f.sequence = true) :
    comm_handle_complete_frame txOkIT txOkBlock now i f = (i, []) := by
  have hacc2 := hacc
  rw [hs] at hacc2
  simp [comm_handle_complete_frame, hv, hna, hnn, hacc, hacc2, hw, hs]

/-- Witness for C4 (amended): WAIT_ACK on sequence 7 with baseline 6; the
echoed frame with sequence 7 is in the accept window and is dropped. -/
theorem C4_anti_loopback_witness :
    (({ cmd := [67, 77, 68], data := [88], sequence := 7, crc := 0, is_valid := true } : CommFrame).is_valid = true ∧
     cstr ({ cmd := [67, 77, 68], data := [88], sequence := 7, crc := 0, is_valid := true } : CommFrame).cmd ≠ ackCmdBytes ∧
     cstr ({ cmd := [67, 77, 68], data := [88], sequence := 7, crc := 0, is_valid := true } : CommFrame).cmd ≠ nakCmdBytes ∧
     ({ commInstanceZero with state := CommState.wait_ack, expected_ack_seq := 7, rx_sequence := 6 } : CommInstance).state = CommState.wait_ack ∧
     ({ cmd := [67, 77, 68], data := [88], sequence := 7, crc := 0, is_valid := true } : CommFrame).sequence = ({ commInstanceZero with state := CommState.wait_ack, expected_ack_seq := 7, rx_sequence := 6 } : CommInstance).expected_ack_seq ∧
     comm_is_valid_rx_sequence { commInstanceZero with state := CommState.wait_ack, expected_ack_seq := 7, rx_sequence := 6 } ({ cmd := [67, 77, 68], data := [88], sequence := 7, crc := 0, is_valid := true } : CommFrame).sequence = true) ∧
    comm_handle_complete_frame true true 0 { commInstanceZero with state := CommState.wait_ack, expected_ack_seq := 7, rx_sequence := 6 } { cmd := [67, 77, 68], data := [88], sequence := 7, crc := 0, is_valid := true } = ({ commInstanceZero with state := CommState.wait_ack, expected_ack_seq := 7, rx_sequence := 6 }, []) :=
  ⟨⟨rfl, by decide, by decide, rfl, by decide, by decide⟩,
   C4_anti_loopback true true 0 { commInstanceZero with state := CommState.wait_ack, expected_ack_seq := 7, rx_sequence := 6 } { cmd := [67, 77, 68], data := [88], sequence := 7, crc := 0, is_valid := true } rfl (by decide) (by decide) rfl (by decide) (by decide)⟩

/-- C8: for a CRC-valid data frame, the duplicate path (normalised distance
0, anti-loopback not applicable) retransmits an ACK for the received
sequence with no dispatch and no change to the instance; the out-of-window
path sends a NAK and leaves rx_sequence unchanged; and rx_sequence can only
change when the receive-window check accepts the sequence. -/
theorem C8_baseline_effect (txOkIT txOkBlock : Bool) (now : Nat)
    (i : CommInstance) (f : CommFrame) (hv : f.is_valid = true)
    (hna : cstr f.cmd ≠ ackCmdBytes) (hnn : cstr f.cmd ≠ nakCmdBytes) :
    (commSeqDiff f.sequence i.rx_sequence = 0 →
      ¬ (i.state = CommState.wait_ack ∧ f.sequence = i.expected_ack_seq) →
      comm_handle_complete_frame txOkIT txOkBlock now i f
        = (i, [CommEffect.sendAck f.sequence])) ∧
    (comm_is_valid_rx_sequence i f.sequence = false →
      commSeqDiff f.sequence i.rx_sequence ≠ 0 →
      (comm_handle_complete_frame txOkIT txOkBlock now i f).1.rx_sequence = i.rx_sequence ∧
      (comm_handle_complete_frame txOkIT txOkBlock now i f).2
        = [CommEffect.sendNak f.sequence seqErrorBytes]) ∧
    ((comm_handle_complete_frame txOkIT txOkBlock now i f).1.rx_sequence ≠ i.rx_sequence →
      comm_is_valid_rx_sequence i f.sequence = true) := by
  refine ⟨?_, ?_, ?_⟩
  · intro hd _
    have hacc : comm_is_valid_rx_sequence i f.sequence = false := by
      simp [comm_is_valid_rx_sequence, hd]
    simp [comm_handle_complete_frame, hv, hna, hnn, hacc, hd, comm_send_ack]
  · intro hacc hd
    cases txOkBlock <;>
      simp [comm_handle_complete_frame, hv, hna, hnn, hacc, hd, comm_send_nak]
  · intro hne
    by_cases hacc : comm_is_valid_rx_sequence i f.sequence = true
    · exact hacc
    · exfalso
      apply hne
      have hacc2 : comm_is_valid_rx_sequence i f.sequence = false :=
        Bool.not_eq_true _ ▸ Bool.eq_false_iff.mpr (fun hc => hacc hc)
      by_cases hd : commSeqDiff f.sequence i.rx_sequence = 0 <;> cases txOkBlock <;>
        simp [comm_handle_complete_frame, hv, hna, hnn, hacc2, hd, comm_send_ack, comm_send_nak]

/-- Witness for C8: duplicate frame with sequence equal to the baseline 4 on
an IDLE channel. -/
theorem C8_baseline_effect_witness :
    (({ cmd := [67, 77, 68], data := [88], sequence := 4, crc := 0, is_valid := true } : CommFrame).is_valid = true ∧
     cstr ({ cmd := [67, 77, 68], data := [88], sequence := 4, crc := 0, is_valid := true } : CommFrame).cmd ≠ ackCmdBytes ∧
     cstr ({ cmd := [67, 77, 68], data := [88], sequence := 4, crc := 0, is_valid := true } : CommFrame).cmd ≠ nakCmdBytes) ∧
    ((commSeqDiff ({ cmd := [67, 77, 68], data := [88], sequence := 4, crc := 0, is_valid := true } : CommFrame).sequence ({ commInstanceZero with rx_sequence := 4 } : CommInstance).rx_sequence = 0 →
      ¬ (({ commInstanceZero with rx_sequence := 4 } : CommInstance).state = CommState.wait_ack ∧ ({ cmd := [67, 77, 68], data := [88], sequence := 4, crc := 0, is_valid := true } : CommFrame).sequence = ({ commInstanceZero with rx_sequence := 4 } : CommInstance).expected_ack_seq) →
      comm_handle_complete_frame true true 0 { commInstanceZero with rx_sequence := 4 } { cmd := [67, 77, 68], data := [88], sequence := 4, crc := 0, is_valid := true } = ({ commInstanceZero with rx_sequence := 4 }, [CommEffect.sendAck ({ cmd := [67, 77, 68], data := [88], sequence := 4, crc := 0, is_valid := true } : CommFrame).sequence])) ∧
     (comm_is_valid_rx_sequence { commInstanceZero with rx_sequence := 4 } ({ cmd := [67, 77, 68], data := [88], sequence := 4, crc := 0, is_valid := true } : CommFrame).sequence = false →
      commSeqDiff ({ cmd := [67, 77, 68], data := [88], sequence := 4, crc := 0, is_valid := true } : CommFrame).sequence ({ commInstanceZero with rx_sequence := 4 } : CommInstance).rx_sequence ≠ 0 →
      (comm_handle_complete_frame true true 0 { commInstanceZero with rx_sequence := 4 } { cmd := [67, 77, 68], data := [88], sequence := 4, crc := 0, is_valid := true }).1.rx_sequence = ({ commInstanceZero with rx_sequence := 4 } : CommInstance).rx_sequence ∧
      (comm_handle_complete_frame true true 0 { commInstanceZero with rx_sequence := 4 } { cmd := [67, 77, 68], data := [88], sequence := 4, crc := 0, is_valid := true }).2 = [CommEffect.sendNak ({ cmd := [67, 77, 68], data := [88], sequence := 4, crc := 0, is_valid := true } : CommFrame).sequence seqErrorBytes]) ∧
     ((comm_handle_complete_frame true true 0 { commInstanceZero with rx_sequence := 4 } { cmd := [67, 77, 68], data := [88], sequence := 4, crc := 0, is_valid := true }).1.rx_sequence ≠ ({ commInstanceZero with rx_sequence := 4 } : CommInstance).rx_sequence →
      comm_is_valid_rx_sequence { commInstanceZero with rx_sequence := 4 } ({ cmd := [67, 77, 68], data := [88], sequence := 4, crc := 0, is_valid := true } : CommFrame).sequence = true)) :=
  ⟨⟨rfl, by decide, by decide⟩,
   C8_baseline_effect true true 0 { commInstanceZero with rx_sequence := 4 } { cmd := [67, 77, 68], data := [88], sequence := 4, crc := 0, is_valid := true } rfl (by decide) (by decide)⟩

theorem foldl_crc8_table_lt (l : List Nat) :
    ∀ c, c < 256 →
      l.foldl (fun crc b => crc8_table.getD ((crc ^^^ b) % 256) 0) c < 256 := by
  induction l with
  | nil => intro c hc; simpa using hc
  | cons b t ih =>
      intro c _
      simpa using ih _ (crc8_table_getD_lt _)

theorem comm_crc8_calculate_lt (l : List Nat) : comm_crc8_calculate l < 256 := by
  unfold comm_crc8_calculate
  split
  · norm_num
  · exact foldl_crc8_table_lt l 0 (by norm_num)

theorem comm_get_next_tx_sequence_lt (i : CommInstance) :
    (comm_get_next_tx_sequence i).2 < 256 := by
  simp only [comm_get_next_tx_sequence]
  split
  · norm_num
  · exact Nat.mod_lt _ (by norm_num)

theorem comm_build_frame_eq (i : CommInstance) (cmd data : List Nat)
    (hc : ∀ b ∈ cmd, b ≠ 0) (hd : ∀ b ∈ data, b ≠ 0)
    (hlc : cmd.length ≤ 16) (hld : data.length ≤ 64) :
    comm_build_frame i cmd data =
      (let drawn : CommInstance × Nat :=
        if i.retry_count > 0 then (i, i.current_sequence)
        else ({ (comm_get_next_tx_sequence i).1 with
                  current_sequence := (comm_get_next_tx_sequence i).2 },
              (comm_get_next_tx_sequence i).2)
      let content := COMM_FRAME_START ::
        (cmd ++ COMM_CMD_DATA_SEPARATOR :: (data ++ COMM_FIELD_SEPARATOR :: hex2 drawn.2))
      some ({ drawn.1 with expected_ack_seq := drawn.2 },
        content ++ COMM_FIELD_SEPARATOR ::
          (hex2 (comm_crc8_calculate content.tail) ++ [COMM_FRAME_END]))) := by
  have hsc : strlen cmd = cmd.length := strlen_eq_length hc
  have hsd : strlen data = data.length := strlen_eq_length hd
  have hcc : cstr cmd = cmd := cstr_eq_self hc
  have hcd : cstr data = data := cstr_eq_self hd
  simp only [comm_build_frame, hsc, hsd, hcc, hcd]
  rw [if_neg (by simp [COMM_MAX_CMD_LENGTH, COMM_MAX_DATA_LENGTH]; omega),
      if_neg (by simp [hex2, COMM_TX_BUFFER_SIZE]; omega),
      if_neg (by simp [hex2, COMM_TX_BUFFER_SIZE]; omega)]

theorem feed_cmd_bytes (now : Nat) (cs : List Nat) :
    ∀ i : CommInstance, i.new_frame_available = false →
      i.parse_state = FrameParseState.cmd →
      i.rx_index + cs.length ≤ 16 → (∀ b ∈ cs, b ≠ 58) →
      cs.foldl (comm_process_byte_in_interrupt now) i
        = { i with pending_frame := { i.pending_frame with cmd := i.pending_frame.cmd ++ cs }
                   rx_index := i.rx_index + cs.length } := by
  induction cs with
  | nil => intro i _ _ _ _; simp
  | cons c cs ih =>
      intro i hflag hps hlen hbytes
      have hc : c ≠ 58 := hbytes c (by simp)
      have hstep : comm_process_byte_in_interrupt now i c
          = { i with pending_frame := { i.pending_frame with cmd := i.pending_frame.cmd ++ [c] }
                     rx_index := i.rx_index + 1 } := by
        simp only [comm_process_byte_in_interrupt, hflag, Bool.false_eq_true, if_false, hps]
        rw [if_neg (by simpa [COMM_CMD_DATA_SEPARATOR] using hc),
            if_pos (by simp [COMM_MAX_CMD_LENGTH] at hlen ⊢; omega)]
      rw [List.foldl_cons, hstep,
          ih _ (by simp [hflag]) (by simp [hps]) (by simp at hlen ⊢; omega)
            (fun b hb => hbytes b (by simp [hb]))]
      simp [List.append_assoc]
      omega

theorem feed_data_bytes (now : Nat) (cs : List Nat) :
    ∀ i : CommInstance, i.new_frame_available = false →
      i.parse_state = FrameParseState.data →
      i.rx_index + cs.length ≤ 64 → (∀ b ∈ cs, b ≠ 35) →
      cs.foldl (comm_process_byte_in_interrupt now) i
        = { i with pending_frame := { i.pending_frame with data := i.pending_frame.data ++ cs }
                   rx_index := i.rx_index + cs.length } := by
  induction cs with
  | nil => intro i _ _ _ _; simp
  | cons c cs ih =>
      intro i hflag hps hlen hbytes
      have hc : c ≠ 35 := hbytes c (by simp)
      have hstep : comm_process_byte_in_interrupt now i c
          = { i with pending_frame := { i.pending_frame with data := i.pending_frame.data ++ [c] }
                     rx_index := i.rx_index + 1 } := by
        simp only [comm_process_byte_in_interrupt, hflag, Bool.false_eq_true, if_false, hps]
        rw [if_neg (by simpa [COMM_FIELD_SEPARATOR] using hc),
            if_pos (by simp [COMM_MAX_DATA_LENGTH] at hlen ⊢; omega)]
      rw [List.foldl_cons, hstep,
          ih _ (by simp [hflag]) (by simp [hps]) (by simp at hlen ⊢; omega)
            (fun b hb => hbytes b (by simp [hb]))]
      simp [List.append_assoc]
      omega

theorem feed_seq_two (now a b : Nat) (i : CommInstance)
    (hflag : i.new_frame_available = false) (hps : i.parse_state = FrameParseState.seq)
    (hrx : i.rx_index = 0) (ha : a ≠ 35) (hb : b ≠ 35) :
    [a, b].foldl (comm_process_byte_in_interrupt now) i
      = { i with rx_buffer := i.rx_buffer ++ [a, b], rx_index := 2 } := by
  have h1 : comm_process_byte_in_interrupt now i a
      = { i with rx_buffer := i.rx_buffer ++ [a], rx_index := i.rx_index + 1 } := by
    simp only [comm_process_byte_in_interrupt, hflag, Bool.false_eq_true, if_false, hps]
    rw [if_neg (by simpa [COMM_FIELD_SEPARATOR] using ha), if_pos (by omega)]
  have h2 : comm_process_byte_in_interrupt now
      { i with rx_buffer := i.rx_buffer ++ [a], rx_index := i.rx_index + 1 } b
      = { i with rx_buffer := (i.rx_buffer ++ [a]) ++ [b], rx_index := i.rx_index + 2 } := by
    simp only [comm_process_byte_in_interrupt, hflag, Bool.false_eq_true, if_false, hps]
    rw [if_neg (by simpa [COMM_FIELD_SEPARATOR] using hb), if_pos (by omega)]
  rw [List.foldl_cons, h1, List.foldl_cons, h2, List.foldl_nil]
  simp [List.append_assoc, hrx]

theorem feed_crc_two (now a b : Nat) (i : CommInstance)
    (hflag : i.new_frame_available = false) (hps : i.parse_state = FrameParseState.crc)
    (hrx : i.rx_index = 0) (ha : a ≠ 125) (hb : b ≠ 125) :
    [a, b].foldl (comm_process_byte_in_interrupt now) i
      = { i with rx_buffer := i.rx_buffer ++ [a, b], rx_index := 2 } := by
  have h1 : comm_process_byte_in_interrupt now i a
      = { i with rx_buffer := i.rx_buffer ++ [a], rx_index := i.rx_index + 1 } := by
    simp only [comm_process_byte_in_interrupt, hflag, Bool.false_eq_true, if_false, hps]
    rw [if_neg (by simpa [COMM_FRAME_END] using ha), if_pos (by omega)]
  have h2 : comm_process_byte_in_interrupt now
      { i with rx_buffer := i.rx_buffer ++ [a], rx_index := i.rx_index + 1 } b
      = { i with rx_buffer := (i.rx_buffer ++ [a]) ++ [b], rx_index := i.rx_index + 2 } := by
    simp only [comm_process_byte_in_interrupt, hflag, Bool.false_eq_true, if_false, hps]
    rw [if_neg (by simpa [COMM_FRAME_END] using hb), if_pos (by omega)]
  rw [List.foldl_cons, h1, List.foldl_cons, h2, List.foldl_nil]
  simp [List.append_assoc, hrx]

theorem hex2_ne_35 (n b : Nat) (hb : b ∈ hex2 n) : b ≠ 35 := by
  rcases hex2_mem_range n b hb with h | h <;> omega

theorem hex2_ne_125 (n b : Nat) (hb : b ∈ hex2 n) : b ≠ 125 := by
  rcases hex2_mem_range n b hb with h | h <;> omega

/-- C1: the frame codec round-trips. Building a frame from a command of at
most 16 bytes and data of at most 64 bytes that avoid the delimiter bytes
of the wire format, then feeding every byte of the produced frame into
comm_process_byte_in_interrupt on a channel whose byte automaton is in IDLE
with no undispatched frame pending, publishes a frame marked CRC-valid
whose command, data and sequence equal the built ones (the built sequence
being the expected_ack_seq the builder recorded). -/
theorem C1_roundtrip (now : Nat) (itx irx itx2 : CommInstance) (cmd data frame : List Nat)
    (hcmd_len : cmd.length ≤ 16) (hdata_len : data.length ≤ 64)
    (hcmd : ∀ b ∈ cmd, b ≠ 0 ∧ b ≠ 58 ∧ b ≠ 35 ∧ b ≠ 123 ∧ b ≠ 125)
    (hdata : ∀ b ∈ data, b ≠ 0 ∧ b ≠ 58 ∧ b ≠ 35 ∧ b ≠ 123 ∧ b ≠ 125)
    (hseq : itx.current_sequence < 256)
    (hbuild : comm_build_frame itx cmd data = some (itx2, frame))
    (hidle : irx.parse_state = FrameParseState.idle)
    (hnf : irx.new_frame_available = false) :
    (frame.foldl (comm_process_byte_in_interrupt now) irx).new_frame_available = true ∧
    (frame.foldl (comm_process_byte_in_interrupt now) irx).pending_frame.is_valid = true ∧
    (frame.foldl (comm_process_byte_in_interrupt now) irx).pending_frame.cmd = cmd ∧
    (frame.foldl (comm_process_byte_in_interrupt now) irx).pending_frame.data = data ∧
    (frame.foldl (comm_process_byte_in_interrupt now) irx).pending_frame.sequence
      = itx2.expected_ack_seq := by
  have hccmd : cstr cmd = cmd := cstr_eq_self (fun b hb => (hcmd b hb).1)
  have hcdata : cstr data = data := cstr_eq_self (fun b hb => (hdata b hb).1)
  rw [comm_build_frame_eq itx cmd data (fun b hb => (hcmd b hb).1)
      (fun b hb => (hdata b hb).1) hcmd_len hdata_len] at hbuild
  obtain ⟨s, hslt, hseq_eq, hframe⟩ :
      ∃ s, s < 256 ∧ itx2.expected_ack_seq = s ∧
        frame = (COMM_FRAME_START :: (cmd ++ COMM_CMD_DATA_SEPARATOR ::
            (data ++ COMM_FIELD_SEPARATOR :: hex2 s)))
          ++ COMM_FIELD_SEPARATOR ::
            (hex2 (comm_crc8_calculate (cmd ++ COMM_CMD_DATA_SEPARATOR ::
              (data ++ COMM_FIELD_SEPARATOR :: hex2 s))) ++ [COMM_FRAME_END]) := by
    by_cases hr : itx.retry_count > 0
    · simp only [hr, if_true, Option.some.injEq, Prod.mk.injEq, List.tail_cons] at hbuild
      exact ⟨itx.current_sequence, hseq, by rw [← hbuild.1], hbuild.2.symm⟩
    · simp only [hr, if_false, Option.some.injEq, Prod.mk.injEq, List.tail_cons] at hbuild
      exact ⟨(comm_get_next_tx_sequence itx).2, comm_get_next_tx_sequence_lt itx,
        by rw [← hbuild.1], hbuild.2.symm⟩
  subst hframe
  have hs2u : strtol16_u8 (hex2 s) = s := strtol16_u8_hex2 s hslt
  have hclt : comm_crc8_calculate (cmd ++ COMM_CMD_DATA_SEPARATOR ::
      (data ++ COMM_FIELD_SEPARATOR :: hex2 s)) < 256 := comm_crc8_calculate_lt _
  have hc2u : strtol16_u8 (hex2 (comm_crc8_calculate (cmd ++ COMM_CMD_DATA_SEPARATOR ::
      (data ++ COMM_FIELD_SEPARATOR :: hex2 s))))
      = comm_crc8_calculate (cmd ++ COMM_CMD_DATA_SEPARATOR ::
        (data ++ COMM_FIELD_SEPARATOR :: hex2 s)) := strtol16_u8_hex2 _ hclt
  have hexlist : hex2 s = [hexDigitUpper (s / 16 % 16), hexDigitUpper (s % 16)] := rfl
  have hexlist2 : hex2 (comm_crc8_calculate (cmd ++ COMM_CMD_DATA_SEPARATOR ::
      (data ++ COMM_FIELD_SEPARATOR :: hex2 s)))
      = [hexDigitUpper (comm_crc8_calculate (cmd ++ COMM_CMD_DATA_SEPARATOR ::
          (data ++ COMM_FIELD_SEPARATOR :: hex2 s)) / 16 % 16),
         hexDigitUpper (comm_crc8_calculate (cmd ++ COMM_CMD_DATA_SEPARATOR ::
          (data ++ COMM_FIELD_SEPARATOR :: hex2 s)) % 16)] := rfl
  have hA : List.foldl (comm_process_byte_in_interrupt now) irx
      (COMM_FRAME_START :: (cmd ++ COMM_CMD_DATA_SEPARATOR ::
        (data ++ COMM_FIELD_SEPARATOR :: hex2 s)))
      = { irx with parse_state := FrameParseState.seq
                   rx_index := 2
                   rx_buffer := hex2 s
                   frame_timeout := u32 (now + 100)
                   pending_frame := { commFrameZero with cmd := cmd, data := data } } := by
    have e1 : comm_process_byte_in_interrupt now irx COMM_FRAME_START
        = { irx with parse_state := FrameParseState.cmd
                     rx_index := 0
                     frame_timeout := u32 (now + 100)
                     pending_frame := commFrameZero } := by
      simp [comm_process_byte_in_interrupt, hnf, hidle]
    rw [List.foldl_cons, e1, List.foldl_append]
    rw [feed_cmd_bytes now cmd _ (by simpa using hnf) (by simp) (by simpa using hcmd_len)
        (fun b hb => (hcmd b hb).2.1)]
    have e3 : comm_process_byte_in_interrupt now
        { irx with parse_state := FrameParseState.cmd
                   rx_index := 0 + cmd.length
                   frame_timeout := u32 (now + 100)
                   pending_frame := { commFrameZero with cmd := commFrameZero.cmd ++ cmd } }
        COMM_CMD_DATA_SEPARATOR
        = { irx with parse_state := FrameParseState.data
                     rx_index := 0
                     frame_timeout := u32 (now + 100)
                     pending_frame := { commFrameZero with cmd := cmd } } := by
      simp [comm_process_byte_in_interrupt, hnf, commFrameZero]
    rw [List.foldl_cons, e3, List.foldl_append]
    rw [feed_data_bytes now data _ (by simpa using hnf) (by simp) (by simpa using hdata_len)
        (fun b hb => (hdata b hb).2.2.1)]
    have e5 : comm_process_byte_in_interrupt now
        { irx with parse_state := FrameParseState.data
                   rx_index := 0 + data.length
                   frame_timeout := u32 (now + 100)
                   pending_frame := { ({ commFrameZero with cmd := cmd } : CommFrame) with
                     data := ({ commFrameZero with cmd := cmd } : CommFrame).data ++ data } }
        COMM_FIELD_SEPARATOR
        = { irx with parse_state := FrameParseState.seq
                     rx_index := 0
                     rx_buffer := []
                     frame_timeout := u32 (now + 100)
                     pending_frame := { commFrameZero with cmd := cmd, data := data } } := by
      simp [comm_process_byte_in_interrupt, hnf, commFrameZero]
    rw [List.foldl_cons, e5, hexlist]
    rw [feed_seq_two now _ _ _ (by simpa using hnf) (by simp) (by simp)
        (hex2_ne_35 s _ (by rw [hexlist]; simp))
        (hex2_ne_35 s _ (by rw [hexlist]; simp))]
    simp [← hexlist]
  rw [List.foldl_append, hA, List.foldl_cons]
  have e7 : comm_process_byte_in_interrupt now
      { irx with parse_state := FrameParseState.seq
                 rx_index := 2
                 rx_buffer := hex2 s
                 frame_timeout := u32 (now + 100)
                 pending_frame := { commFrameZero with cmd := cmd, data := data } }
      COMM_FIELD_SEPARATOR
      = { irx with parse_state := FrameParseState.crc
                   rx_index := 0
                   rx_buffer := []
                   frame_timeout := u32 (now + 100)
                   pending_frame := { commFrameZero with cmd := cmd, data := data, sequence := s } } := by
    simp [comm_process_byte_in_interrupt, hnf, commFrameZero, hs2u]
  rw [e7, hexlist2, List.foldl_append]
  rw [feed_crc_two now _ _ _ (by simpa using hnf) (by simp) (by simp)
      (hex2_ne_125 _ _ (by rw [hexlist2]; simp))
      (hex2_ne_125 _ _ (by rw [hexlist2]; simp))]
  have hchk : frameCrcString { commFrameZero with cmd := cmd, data := data, sequence := s }
      = cmd ++ COMM_CMD_DATA_SEPARATOR :: (data ++ COMM_FIELD_SEPARATOR :: hex2 s) := by
    simp [frameCrcString, commFrameZero, hccmd, hcdata]
  have hpos : (0 : Nat) < (cmd ++ COMM_CMD_DATA_SEPARATOR ::
      (data ++ COMM_FIELD_SEPARATOR :: hex2 s)).length := by
    simp
  have e9 : comm_process_byte_in_interrupt now
      { irx with parse_state := FrameParseState.crc
                 rx_index := 2
                 rx_buffer := [] ++ [hexDigitUpper (comm_crc8_calculate (cmd ++
                     COMM_CMD_DATA_SEPARATOR :: (data ++ COMM_FIELD_SEPARATOR :: hex2 s)) / 16 % 16),
                   hexDigitUpper (comm_crc8_calculate (cmd ++ COMM_CMD_DATA_SEPARATOR ::
                     (data ++ COMM_FIELD_SEPARATOR :: hex2 s)) % 16)]
                 frame_timeout := u32 (now + 100)
                 pending_frame := { commFrameZero with cmd := cmd, data := data, sequence := s } }
      COMM_FRAME_END
      = { irx with parse_state := FrameParseState.idle
                   rx_index := 0
                   frame_timeout := u32 (now + 100)
                   rx_buffer := hex2 (comm_crc8_calculate (cmd ++ COMM_CMD_DATA_SEPARATOR ::
                     (data ++ COMM_FIELD_SEPARATOR :: hex2 s)))
                   new_frame_available := true
                   pending_frame := { cmd := cmd, data := data, sequence := s, crc := comm_crc8_calculate (cmd ++ COMM_CMD_DATA_SEPARATOR :: (data ++ COMM_FIELD_SEPARATOR :: hex2 s)), is_valid := true } } := by
    simp only [comm_process_byte_in_interrupt, hnf, Bool.false_eq_true, if_false]
    simp only [List.nil_append, ← hexlist2, hc2u, hchk]
    simp [comm_crc8_verify, commFrameZero, hpos]
  rw [List.foldl_cons, e9, List.foldl_nil]
  exact ⟨rfl, rfl, rfl, rfl, by rw [hseq_eq]⟩

/-- Witness for C1: the command GET with data TEMP on fresh instances; the
built frame is the byte string of the form left brace GET:TEMP#01#D2 right
brace and parses back to an identical valid frame. -/
theorem C1_roundtrip_witness :
    ([71, 69, 84].length ≤ 16 ∧ [84, 69, 77, 80].length ≤ 64 ∧
     (∀ b ∈ [71, 69, 84], b ≠ 0 ∧ b ≠ 58 ∧ b ≠ 35 ∧ b ≠ 123 ∧ b ≠ 125) ∧
     (∀ b ∈ [84, 69, 77, 80], b ≠ 0 ∧ b ≠ 58 ∧ b ≠ 35 ∧ b ≠ 123 ∧ b ≠ 125) ∧
     commInstanceZero.current_sequence < 256 ∧
     comm_build_frame commInstanceZero [71, 69, 84] [84, 69, 77, 80]
       = some ({ commInstanceZero with tx_sequence := 1, current_sequence := 1, expected_ack_seq := 1 },
           [123, 71, 69, 84, 58, 84, 69, 77, 80, 35, 48, 49, 35, 68, 50, 125]) ∧
     commInstanceZero.parse_state = FrameParseState.idle ∧
     commInstanceZero.new_frame_available = false) ∧
    (([123, 71, 69, 84, 58, 84, 69, 77, 80, 35, 48, 49, 35, 68, 50, 125].foldl
        (comm_process_byte_in_interrupt 0) commInstanceZero).new_frame_available = true ∧
     ([123, 71, 69, 84, 58, 84, 69, 77, 80, 35, 48, 49, 35, 68, 50, 125].foldl
        (comm_process_byte_in_interrupt 0) commInstanceZero).pending_frame.is_valid = true ∧
     ([123, 71, 69, 84, 58, 84, 69, 77, 80, 35, 48, 49, 35, 68, 50, 125].foldl
        (comm_process_byte_in_interrupt 0) commInstanceZero).pending_frame.cmd = [71, 69, 84] ∧
     ([123, 71, 69, 84, 58, 84, 69, 77, 80, 35, 48, 49, 35, 68, 50, 125].foldl
        (comm_process_byte_in_interrupt 0) commInstanceZero).pending_frame.data = [84, 69, 77, 80] ∧
     ([123, 71, 69, 84, 58, 84, 69, 77, 80, 35, 48, 49, 35, 68, 50, 125].foldl
        (comm_process_byte_in_interrupt 0) commInstanceZero).pending_frame.sequence
       = ({ commInstanceZero with tx_sequence := 1, current_sequence := 1, expected_ack_seq := 1 } : CommInstance).expected_ack_seq) :=
  ⟨⟨by decide, by decide, by decide, by decide, by decide, by decide, rfl, rfl⟩,
   C1_roundtrip 0 commInstanceZero commInstanceZero
     { commInstanceZero with tx_sequence := 1, current_sequence := 1, expected_ack_seq := 1 }
     [71, 69, 84] [84, 69, 77, 80]
     [123, 71, 69, 84, 58, 84, 69, 77, 80, 35, 48, 49, 35, 68, 50, 125]
     (by decide) (by decide) (by decide) (by decide) (by decide) (by decide) rfl rfl⟩

/-- Counterexample for C7 as stated: a command of exactly 16 bytes sent from
IDLE is rejected by comm_send_command, because the length guard in comm.c
uses strlen greater or equal 16 rather than greater than 16, although the
claim says every command of 1 to 16 bytes passes validation. -/
theorem C7_counterexample :
    ([65, 65, 65, 65, 65, 65, 65, 65, 65, 65, 65, 65, 65, 65, 65, 65] : List Nat).length = 16 ∧
    commInstanceZero.state = CommState.idle ∧
    (comm_send_command true 0 commInstanceZero
      (some [65, 65, 65, 65, 65, 65, 65, 65, 65, 65, 65, 65, 65, 65, 65, 65])
      (some [66])).1 = false := by decide

/-- C7 (amended): comm_send_command with a succeeding transport returns
failure with the channel unchanged exactly when the channel is not IDLE or
the command is 16 bytes or longer or the data 64 bytes or longer; from IDLE
every command of 1 to 15 bytes and data of 0 to 63 bytes passes validation,
is transmitted, and moves the channel to WAIT_ACK with last_send_time
recorded. -/
theorem C7_send_preconditions (now : Nat) (i : CommInstance) (cmd data : List Nat)
    (hc : ∀ b ∈ cmd, b ≠ 0) (hd : ∀ b ∈ data, b ≠ 0) :
    ((comm_send_command true now i (some cmd) (some data)).1 = false ∧
        (comm_send_command true now i (some cmd) (some data)).2 = i ↔
      (i.state ≠ CommState.idle ∨ 16 ≤ cmd.length ∨ 64 ≤ data.length)) ∧
    (i.state = CommState.idle → 1 ≤ cmd.length → cmd.length ≤ 15 → data.length ≤ 63 →
      (comm_send_command true now i (some cmd) (some data)).1 = true ∧
      (comm_send_command true now i (some cmd) (some data)).2.state = CommState.wait_ack ∧
      (comm_send_command true now i (some cmd) (some data)).2.last_send_time = now) := by
  have hsl : strlen cmd = cmd.length := strlen_eq_length hc
  have hdl : strlen data = data.length := strlen_eq_length hd
  have hsucc : i.state = CommState.idle → cmd.length ≤ 15 → data.length ≤ 63 →
      (comm_send_command true now i (some cmd) (some data)).1 = true ∧
      (comm_send_command true now i (some cmd) (some data)).2.state = CommState.wait_ack ∧
      (comm_send_command true now i (some cmd) (some data)).2.last_send_time = now := by
    intro hst hlc hld
    have hready : comm_instance_is_ready i = true := by
      simp [comm_instance_is_ready, hst]
    simp only [comm_send_command, hready, not_true, if_false]
    rw [if_neg (by simp [hsl, hdl, COMM_MAX_CMD_LENGTH, COMM_MAX_DATA_LENGTH]; omega)]
    rw [comm_build_frame_eq _ cmd data hc hd (by omega) (by omega)]
    split
    · rename_i heq
      simp at heq
    · simp [comm_set_state]
  refine ⟨⟨?_, ?_⟩, fun hst _ hlc hld => hsucc hst hlc hld⟩
  · intro hfail
    by_contra hcon
    push_neg at hcon
    obtain ⟨hst, hlc, hld⟩ := hcon
    have := hsucc (by revert hst; cases i.state <;> simp) (by omega) (by omega)
    rw [hfail.1] at this
    exact absurd this.1 (by simp)
  · intro hcase
    by_cases hst : i.state = CommState.idle
    · have hready : comm_instance_is_ready i = true := by
        simp [comm_instance_is_ready, hst]
      have hlen : 16 ≤ cmd.length ∨ 64 ≤ data.length := by
        rcases hcase with h | h | h
        · exact absurd hst h
        · exact Or.inl h
        · exact Or.inr h
      simp only [comm_send_command, hready, not_true, if_false]
      rw [if_pos (by simp [hsl, hdl, COMM_MAX_CMD_LENGTH, COMM_MAX_DATA_LENGTH]; omega)]
      exact ⟨rfl, rfl⟩
    · have hready : comm_instance_is_ready i = false := by
        simp [comm_instance_is_ready, hst]
      simp [comm_send_command, hready]

/-- Witness for C7 (amended) on a fresh IDLE channel with the command GET
and data TEMP. -/
theorem C7_send_preconditions_witness :
    ((∀ b ∈ [71, 69, 84], b ≠ 0) ∧ (∀ b ∈ [84, 69, 77, 80], b ≠ 0)) ∧
    (((comm_send_command true 7 commInstanceZero (some [71, 69, 84]) (some [84, 69, 77, 80])).1 = false ∧
        (comm_send_command true 7 commInstanceZero (some [71, 69, 84]) (some [84, 69, 77, 80])).2 = commInstanceZero ↔
      (commInstanceZero.state ≠ CommState.idle ∨ 16 ≤ ([71, 69, 84] : List Nat).length ∨ 64 ≤ ([84, 69, 77, 80] : List Nat).length)) ∧
     (commInstanceZero.state = CommState.idle → 1 ≤ ([71, 69, 84] : List Nat).length → ([71, 69, 84] : List Nat).length ≤ 15 → ([84, 69, 77, 80] : List Nat).length ≤ 63 →
      (comm_send_command true 7 commInstanceZero (some [71, 69, 84]) (some [84, 69, 77, 80])).1 = true ∧
      (comm_send_command true 7 commInstanceZero (some [71, 69, 84]) (some [84, 69, 77, 80])).2.state = CommState.wait_ack ∧
      (comm_send_command true 7 commInstanceZero (some [71, 69, 84]) (some [84, 69, 77, 80])).2.last_send_time = 7)) :=
  ⟨⟨by decide, by decide⟩,
   C7_send_preconditions 7 commInstanceZero [71, 69, 84] [84, 69, 77, 80] (by decide) (by decide)⟩

/-- Counterexample for C2 as stated: from WAIT_ACK with retry_count 0 and
max_retry 3, three consecutive timeout expirations produce three
retransmissions and no failure callback at all, and the channel is still in
WAIT_ACK with retry_count 3 — not IDLE with one failure callback as the
claim requires. The exhaustion callback only fires on the fourth
expiration. -/
theorem C2_counterexample :
    let i0 : CommInstance := { commInstanceZero with state := CommState.wait_ack, current_cmd := [71, 69, 84], current_data := [84], tx_buffer := [1, 2] }
    let r1 := comm_handle_timeout true true 1000 i0
    let r2 := comm_handle_timeout true true 2000 r1.1
    let r3 := comm_handle_timeout true true 3000 r2.1
    (r1.2 ++ r2.2 ++ r3.2).countP
        (fun e => match e with
          | CommEffect.failCallback _ _ _ => true
          | _ => false) = 0 ∧
    r3.1.state = CommState.wait_ack ∧ r3.1.retry_count = 3 := by
  decide

/-- C2 (amended): with max_retry 3 and retry_count 0 in WAIT_ACK, the first
three timeout expirations each retransmit the frame held in tx_buffer and
stay in WAIT_ACK; the fourth expiration makes exactly one failure-callback
invocation carrying the retained command and data and the reason literal of
the source (Chinese for "timeout retry failed"), after which the channel is
IDLE with retry_count 0 and accepts a new send. -/
theorem C2_retry_exhaustion (now1 now2 now3 now4 : Nat) (i : CommInstance)
    (_hw : i.state = CommState.wait_ack) (hr : i.retry_count = 0) (hm : i.max_retry = 3) :
    let r1 := comm_handle_timeout true true now1 i
    let r2 := comm_handle_timeout true true now2 r1.1
    let r3 := comm_handle_timeout true true now3 r2.1
    let r4 := comm_handle_timeout true true now4 r3.1
    r1.2 = [CommEffect.retransmit i.tx_buffer] ∧
    r2.2 = [CommEffect.retransmit i.tx_buffer] ∧
    r3.2 = [CommEffect.retransmit i.tx_buffer] ∧
    r4.2 = [CommEffect.failCallback i.current_cmd i.current_data timeoutFailReasonBytes] ∧
    r1.1.state = CommState.wait_ack ∧ r2.1.state = CommState.wait_ack ∧
    r3.1.state = CommState.wait_ack ∧
    r4.1.state = CommState.idle ∧ r4.1.retry_count = 0 ∧
    comm_instance_is_ready r4.1 = true := by
  simp [comm_handle_timeout, comm_set_state, comm_instance_is_ready, hr, hm]

/-- Witness for C2 (amended) on a fresh WAIT_ACK channel holding the frame
bytes 1, 2 with command GET and data T retained. -/
theorem C2_retry_exhaustion_witness :
    (({ commInstanceZero with state := CommState.wait_ack, current_cmd := [71, 69, 84], current_data := [84], tx_buffer := [1, 2] } : CommInstance).state = CommState.wait_ack ∧
     ({ commInstanceZero with state := CommState.wait_ack, current_cmd := [71, 69, 84], current_data := [84], tx_buffer := [1, 2] } : CommInstance).retry_count = 0 ∧
     ({ commInstanceZero with state := CommState.wait_ack, current_cmd := [71, 69, 84], current_data := [84], tx_buffer := [1, 2] } : CommInstance).max_retry = 3) ∧
    (let i0 : CommInstance := { commInstanceZero with state := CommState.wait_ack, current_cmd := [71, 69, 84], current_data := [84], tx_buffer := [1, 2] }
     let r1 := comm_handle_timeout true true 1000 i0
     let r2 := comm_handle_timeout true true 2000 r1.1
     let r3 := comm_handle_timeout true true 3000 r2.1
     let r4 := comm_handle_timeout true true 4000 r3.1
     r1.2 = [CommEffect.retransmit i0.tx_buffer] ∧
     r2.2 = [CommEffect.retransmit i0.tx_buffer] ∧
     r3.2 = [CommEffect.retransmit i0.tx_buffer] ∧
     r4.2 = [CommEffect.failCallback i0.current_cmd i0.current_data timeoutFailReasonBytes] ∧
     r1.1.state = CommState.wait_ack ∧ r2.1.state = CommState.wait_ack ∧
     r3.1.state = CommState.wait_ack ∧
     r4.1.state = CommState.idle ∧ r4.1.retry_count = 0 ∧
     comm_instance_is_ready r4.1 = true) :=
  ⟨⟨rfl, rfl, rfl⟩,
   C2_retry_exhaustion 1000 2000 3000 4000
     { commInstanceZero with state := CommState.wait_ack, current_cmd := [71, 69, 84], current_data := [84], tx_buffer := [1, 2] }
     rfl rfl rfl⟩

/-- Counterexample for C3 as stated: feeding the frame bytes of left brace
A:B#01#00 right brace from a fresh channel, the closing brace arrives while
the parser is in the CRC state (the prefix of ten bytes leaves the
automaton there), yet no frame is published: the CRC8 of A:B#01 is 0xF3,
not the received 0x00, and the code sets the frame-available flag only when
the CRC matches. -/
theorem C3_counterexample :
    (([123, 65, 58, 66, 35, 48, 49, 35, 48, 48, 125].take 10).foldl
        (comm_process_byte_in_interrupt 0) commInstanceZero).parse_state
      = FrameParseState.crc ∧
    ([123, 65, 58, 66, 35, 48, 49, 35, 48, 48, 125].foldl
        (comm_process_byte_in_interrupt 0) commInstanceZero).new_frame_available = false ∧
    ([123, 65, 58, 66, 35, 48, 49, 35, 48, 48, 125].foldl
        (comm_process_byte_in_interrupt 0) commInstanceZero).pending_frame.is_valid = false := by
  decide

/-- C3 (amended): when the closing brace arrives in the CRC state, the
parser stores the received CRC, sets the valid field of the frame to the result
of comparing the recomputed CRC8 of the rebuilt CMD:DATA#SEQHEX string with
the received value, returns to IDLE, and publishes the frame (sets the
frame-available flag) exactly when that comparison succeeds; a CRC-invalid
frame is not published. -/
theorem C3_crc_publish (now : Nat) (i : CommInstance)
    (hnf : i.new_frame_available = false) (hps : i.parse_state = FrameParseState.crc) :
    (comm_process_byte_in_interrupt now i COMM_FRAME_END).parse_state
      = FrameParseState.idle ∧
    (comm_process_byte_in_interrupt now i COMM_FRAME_END).pending_frame.is_valid
      = comm_crc8_verify (frameCrcString i.pending_frame) (strtol16_u8 i.rx_buffer) ∧
    (comm_process_byte_in_interrupt now i COMM_FRAME_END).new_frame_available
      = comm_crc8_verify (frameCrcString i.pending_frame) (strtol16_u8 i.rx_buffer) ∧
    (comm_process_byte_in_interrupt now i COMM_FRAME_END).pending_frame.crc
      = strtol16_u8 i.rx_buffer := by
  have hlen : (0 : Nat) < (frameCrcString i.pending_frame).length := by
    simp [frameCrcString]
  simp [comm_process_byte_in_interrupt, hnf, hps, hlen]

/-- Witness for C3 (amended) on a channel mid-frame in the CRC state with
buffered CRC characters 00, pending command A, data B and sequence 1. -/
theorem C3_crc_publish_witness :
    (({ commInstanceZero with parse_state := FrameParseState.crc, rx_buffer := [48, 48], pending_frame := { cmd := [65], data := [66], sequence := 1, crc := 0, is_valid := false } } : CommInstance).new_frame_available = false ∧
     ({ commInstanceZero with parse_state := FrameParseState.crc, rx_buffer := [48, 48], pending_frame := { cmd := [65], data := [66], sequence := 1, crc := 0, is_valid := false } } : CommInstance).parse_state = FrameParseState.crc) ∧
    ((comm_process_byte_in_interrupt 0 { commInstanceZero with parse_state := FrameParseState.crc, rx_buffer := [48, 48], pending_frame := { cmd := [65], data := [66], sequence := 1, crc := 0, is_valid := false } } COMM_FRAME_END).parse_state = FrameParseState.idle ∧
     (comm_process_byte_in_interrupt 0 { commInstanceZero with parse_state := FrameParseState.crc, rx_buffer := [48, 48], pending_frame := { cmd := [65], data := [66], sequence := 1, crc := 0, is_valid := false } } COMM_FRAME_END).pending_frame.is_valid
       = comm_crc8_verify (frameCrcString ({ commInstanceZero with parse_state := FrameParseState.crc, rx_buffer := [48, 48], pending_frame := { cmd := [65], data := [66], sequence := 1, crc := 0, is_valid := false } } : CommInstance).pending_frame) (strtol16_u8 ({ commInstanceZero with parse_state := FrameParseState.crc, rx_buffer := [48, 48], pending_frame := { cmd := [65], data := [66], sequence := 1, crc := 0, is_valid := false } } : CommInstance).rx_buffer) ∧
     (comm_process_byte_in_interrupt 0 { commInstanceZero with parse_state := FrameParseState.crc, rx_buffer := [48, 48], pending_frame := { cmd := [65], data := [66], sequence := 1, crc := 0, is_valid := false } } COMM_FRAME_END).new_frame_available
       = comm_crc8_verify (frameCrcString ({ commInstanceZero with parse_state := FrameParseState.crc, rx_buffer := [48, 48], pending_frame := { cmd := [65], data := [66], sequence := 1, crc := 0, is_valid := false } } : CommInstance).pending_frame) (strtol16_u8 ({ commInstanceZero with parse_state := FrameParseState.crc, rx_buffer := [48, 48], pending_frame := { cmd := [65], data := [66], sequence := 1, crc := 0, is_valid := false } } : CommInstance).rx_buffer) ∧
     (comm_process_byte_in_interrupt 0 { commInstanceZero with parse_state := FrameParseState.crc, rx_buffer := [48, 48], pending_frame := { cmd := [65], data := [66], sequence := 1, crc := 0, is_valid := false } } COMM_FRAME_END).pending_frame.crc
       = strtol16_u8 ({ commInstanceZero with parse_state := FrameParseState.crc, rx_buffer := [48, 48], pending_frame := { cmd := [65], data := [66], sequence := 1, crc := 0, is_valid := false } } : CommInstance).rx_buffer) :=
  ⟨⟨rfl, rfl⟩,
   C3_crc_publish 0 { commInstanceZero with parse_state := FrameParseState.crc, rx_buffer := [48, 48], pending_frame := { cmd := [65], data := [66], sequence := 1, crc := 0, is_valid := false } } rfl rfl⟩

theorem comm_handle_timeout_preserves (a b : Bool) (n : Nat) (i : CommInstance) :
    (comm_handle_timeout a b n i).1.new_frame_available = i.new_frame_available ∧
    (comm_handle_timeout a b n i).1.parse_state = i.parse_state ∧
    (comm_handle_timeout a b n i).1.pending_frame = i.pending_frame := by
  simp only [comm_handle_timeout, comm_set_state]
  split_ifs <;> simp

/-- C10 (implicit): while the single-slot mailbox holds an undispatched
frame (new_frame_available set), comm_process_byte_in_interrupt discards
every incoming byte and returns the instance unchanged in every field, and
the comm_tick loop body then consumes the pending frame, clearing both the
flag and the pending frame slot. -/
theorem C10_mailbox (txOkIT txOkBlock : Bool) (now : Nat) (i : CommInstance) (byte : Nat)
    (hp : i.new_frame_available = true) (hidle : i.parse_state = FrameParseState.idle) :
    comm_process_byte_in_interrupt now i byte = i ∧
    (comm_tick_body txOkIT txOkBlock now i).1.new_frame_available = false ∧
    (comm_tick_body txOkIT txOkBlock now i).1.pending_frame = commFrameZero := by
  have hpre := comm_handle_timeout_preserves txOkIT txOkBlock now i
  refine ⟨by simp [comm_process_byte_in_interrupt, hp], ?_, ?_⟩ <;>
  · by_cases ht : comm_is_timeout now i = true
    · have hft : comm_is_frame_timeout now (comm_handle_timeout txOkIT txOkBlock now i).1
          = false := by
        have hps := hpre.2.1
        simp [comm_is_frame_timeout, hps, hidle]
      have hfa : (comm_handle_timeout txOkIT txOkBlock now i).1.new_frame_available = true := by
        rw [hpre.1, hp]
      simp [comm_tick_body, ht, hft, hfa]
    · have ht2 : comm_is_timeout now i = false := by
        revert ht
        cases comm_is_timeout now i <;> simp
      have hft : comm_is_frame_timeout now i = false := by
        simp [comm_is_frame_timeout, hidle]
      simp [comm_tick_body, ht2, hft, hp]

/-- Witness for C10 on a channel holding an undispatched PING frame, fed the
frame-start byte. -/
theorem C10_mailbox_witness :
    (({ commInstanceZero with new_frame_available := true, pending_frame := { cmd := [80, 73, 78, 71], data := [84], sequence := 2, crc := 9, is_valid := true } } : CommInstance).new_frame_available = true ∧
     ({ commInstanceZero with new_frame_available := true, pending_frame := { cmd := [80, 73, 78, 71], data := [84], sequence := 2, crc := 9, is_valid := true } } : CommInstance).parse_state = FrameParseState.idle) ∧
    (comm_process_byte_in_interrupt 0 { commInstanceZero with new_frame_available := true, pending_frame := { cmd := [80, 73, 78, 71], data := [84], sequence := 2, crc := 9, is_valid := true } } 123
       = { commInstanceZero with new_frame_available := true, pending_frame := { cmd := [80, 73, 78, 71], data := [84], sequence := 2, crc := 9, is_valid := true } } ∧
     (comm_tick_body true true 0 { commInstanceZero with new_frame_available := true, pending_frame := { cmd := [80, 73, 78, 71], data := [84], sequence := 2, crc := 9, is_valid := true } }).1.new_frame_available = false ∧
     (comm_tick_body true true 0 { commInstanceZero with new_frame_available := true, pending_frame := { cmd := [80, 73, 78, 71], data := [84], sequence := 2, crc := 9, is_valid := true } }).1.pending_frame = commFrameZero) :=
  ⟨⟨rfl, rfl⟩,
   C10_mailbox true true 0 { commInstanceZero with new_frame_available := true, pending_frame := { cmd := [80, 73, 78, 71], data := [84], sequence := 2, crc := 9, is_valid := true } } 123 rfl rfl⟩
